import Mathlib

/-!
Verification of the PR-analysis orchestration core of `ai-code-reviewer`.

The TypeScript services (`analysis.service.ts`, `azure-openai.service.ts`,
the data-model declarations) are shallowly embedded below.  JavaScript
strings are modelled as `List Char`; JavaScript values that may be
`undefined` at run time are modelled as `Option`; code that can throw is
modelled with `Except`.  External collaborators (GitHub gateway, Azure
OpenAI endpoint) are modelled as oracle fields of an environment record,
since the orchestrator only sequences their results.
-/

/-- JavaScript strings, modelled as lists of characters. -/
abbrev JSStr := List Char

/-- Model of `s.includes(sub)` — substring containment, case-sensitive. -/
def jsIncludes (s sub : JSStr) : Bool := decide (sub <:+: s)

/-- Model of `s.endsWith(suf)`. -/
def jsEndsWith (s suf : JSStr) : Bool := decide (suf <:+ s)

/-- Model of `s.toLowerCase()` (ASCII-adequate model). -/
def jsToLower (s : JSStr) : JSStr := s.map Char.toLower

/-- JavaScript `x || dflt` on a possibly-undefined string:
`undefined` and the empty string are falsy. -/
def jsOrStr (x : Option JSStr) (dflt : JSStr) : JSStr :=
  match x with
  | none => dflt
  | some v => if v = [] then dflt else v

/-- JavaScript `x || []` on a possibly-undefined array (a non-undefined
array value is truthy, even when empty). -/
def jsOrList {α : Type} (x : Option (List α)) : List α :=
  match x with
  | none => []
  | some l => l

/-- JavaScript `Array.prototype.map((elem, index) => ...)`, index from `n`. -/
def jsMapIdxFrom {α β : Type} (f : Nat → α → β) : Nat → List α → List β
  | _, [] => []
  | n, a :: rest => f n a :: jsMapIdxFrom f (n + 1) rest

/-- JavaScript `Array.prototype.map((elem, index) => ...)`. -/
def jsMapIdx {α β : Type} (f : Nat → α → β) (l : List α) : List β :=
  jsMapIdxFrom f 0 l

/-- A thrown/raised JavaScript error object: `code` and `message`
properties may each be absent. -/
structure ThrownError where
  code : Option JSStr
  message : Option JSStr
  deriving Repr, DecidableEq

/-- Model of `GitHubFile.status` union from `github.model.ts`. -/
inductive FileStatus
  | added
  | modified
  | removed
  | renamed
  deriving Repr, DecidableEq

/-- Model of `GitHubFile` from `github.model.ts`.  The declared TS type has
`patch: string`, but TypeScript types are erased at run time, so the
`patch` property reaching `detectSchemaChanges` is modelled as possibly
`undefined` (`Option`); the GitHub API omits `patch` for binary files. -/
structure GitHubFile where
  filename : JSStr
  status : FileStatus
  additions : Nat
  deletions : Nat
  changes : Nat
  patch : Option JSStr
  previousFilename : Option JSStr
  deriving Repr, DecidableEq

/-- Model of `GitHubCommit` from `github.model.ts`. -/
structure GitHubCommit where
  sha : JSStr
  message : JSStr
  author : JSStr
  date : JSStr
  deriving Repr, DecidableEq

/-- Repository identity part of `GitHubPullRequest`. -/
structure RepoId where
  owner : JSStr
  name : JSStr
  fullName : JSStr
  deriving Repr, DecidableEq

/-- Model of `GitHubPullRequest` from `github.model.ts` (fields the orchestrator
reads; author/timestamps/state are carried but never consumed). -/
structure GitHubPullRequest where
  number : Nat
  title : JSStr
  description : JSStr
  filesChanged : Nat
  additions : Nat
  deletions : Nat
  repository : RepoId
  files : List GitHubFile
  commits : List GitHubCommit
  deriving Repr, DecidableEq

/-- Model of `SchemaChange.type` union from `analysis.model.ts`. -/
inductive SchemaType
  | table
  | column
  | index
  | constraint
  | migration
  deriving Repr, DecidableEq

/-- Model of `SchemaChange.action` union from `analysis.model.ts`. -/
inductive SchemaAction
  | add
  | modify
  | remove
  deriving Repr, DecidableEq

/-- Model of `SchemaChange` from `analysis.model.ts`. -/
structure SchemaChange where
  type : SchemaType
  action : SchemaAction
  entity : JSStr
  description : JSStr
  sqlScript : Option JSStr
  rollbackScript : Option JSStr
  breakingChange : Bool
  deriving Repr, DecidableEq

/-- The filename test of `AnalysisService.detectSchemaChanges`:
`filename.includes('migration') || filename.includes('schema') ||
filename.endsWith('.sql')`. -/
def schemaNameMatch (filename : JSStr) : Bool :=
  jsIncludes filename "migration".toList ||
  jsIncludes filename "schema".toList ||
  jsEndsWith filename ".sql".toList

/-- The `SchemaChange` object literal pushed by `detectSchemaChanges`
for a matching file whose `patch` is the string `p`. -/
def mkSchemaChange (file : GitHubFile) (p : JSStr) : SchemaChange :=
  { type := SchemaType.migration
    action := if file.status = FileStatus.added then SchemaAction.add else SchemaAction.modify
    entity := file.filename
    description := "Database change in ".toList ++ file.filename
    sqlScript := some p
    rollbackScript := none
    breakingChange := jsIncludes (jsToLower p) "drop".toList }

/-- The `TypeError` raised by `file.patch.toLowerCase()` when `patch`
is `undefined`. -/
def patchTypeError : ThrownError :=
  { code := none
    message := some "Cannot read properties of undefined".toList }

/-- Model of `AnalysisService.detectSchemaChanges`: iterates over the PR files in
order; a file is flagged when `schemaNameMatch` holds; building the
flagged entry reads `file.patch.toLowerCase()` without a guard, which
throws when `patch` is `undefined`. -/
def detectSchemaChanges : List GitHubFile → Except ThrownError (List SchemaChange)
  | [] => Except.ok []
  | file :: rest =>
    if schemaNameMatch file.filename then
      match file.patch with
      | none => Except.error patchTypeError
      | some p =>
        match detectSchemaChanges rest with
        | Except.error e => Except.error e
        | Except.ok l => Except.ok (mkSchemaChange file p :: l)
    else
      detectSchemaChanges rest

/-- Model of `CodeChange.impact` union from `analysis.model.ts`. -/
inductive ImpactLevel
  | breaking
  | major
  | minor
  | patch
  deriving Repr, DecidableEq

/-- Model of `CodeChange.type` union from `analysis.model.ts`. -/
inductive ChangeType
  | feature
  | bugfix
  | refactor
  | style
  | test
  | docs
  deriving Repr, DecidableEq

/-- Model of `AnalysisService.calculateImpact`: strict greater-than thresholds on
`file.changes`, checked in order 500 then 100. -/
def calculateImpact (file : GitHubFile) : ImpactLevel :=
  if file.changes > 500 then ImpactLevel.major
  else if file.changes > 100 then ImpactLevel.minor
  else ImpactLevel.patch

/-- Model of `AnalysisService.detectChangeType`: first-match filename heuristic. -/
def detectChangeType (filename : JSStr) : ChangeType :=
  if jsIncludes filename "test".toList then ChangeType.test
  else if jsEndsWith filename ".md".toList then ChangeType.docs
  else if jsEndsWith filename ".css".toList || jsEndsWith filename ".scss".toList then
    ChangeType.style
  else ChangeType.feature

/-- Model of `AzureOpenAIService.estimateTokens`: `Math.ceil(text.length / 4)`. -/
def estimateTokens (text : JSStr) : Nat := (text.length + 3) / 4

/-- The truncation marker appended by `ensureWithinLimit`. -/
def truncationMarker : JSStr := "\n... (truncated due to length)".toList

/-- Model of `AzureOpenAIService.ensureWithinLimit`: return the text unchanged
when its token estimate fits the budget, otherwise keep the first
`maxTokens * 4` characters and append the marker. -/
def ensureWithinLimit (text : JSStr) (maxTokens : Nat) : JSStr :=
  if estimateTokens text ≤ maxTokens then text
  else text.take (maxTokens * 4) ++ truncationMarker

/-- Raw provider-JSON element of the `suggestions` array (fields the
mapper reads; defaulted fields are `Option`, reflecting absence). -/
structure SuggestionJson where
  file : JSStr
  line : Option Nat
  column : Option Nat
  message : JSStr
  severity : Option JSStr
  category : Option JSStr
  suggestedCode : Option JSStr
  reasoning : Option JSStr
  deriving Repr, DecidableEq

/-- Raw provider-JSON element of the `security` array. -/
structure SecurityJson where
  file : JSStr
  line : Option Nat
  issue : JSStr
  severity : Option JSStr
  recommendation : JSStr
  cwe : Option JSStr
  owasp : Option JSStr
  deriving Repr, DecidableEq

/-- Raw provider-JSON element of the `performance` array. -/
structure PerformanceJson where
  file : JSStr
  line : Option Nat
  issue : JSStr
  impact : Option JSStr
  recommendation : JSStr
  estimatedImprovement : Option JSStr
  deriving Repr, DecidableEq

/-- Raw provider-JSON element of the `tests` array. -/
structure TestJson where
  title : JSStr
  description : JSStr
  priority : Option JSStr
  category : Option JSStr
  steps : Option (List JSStr)
  expected : Option JSStr
  testData : Option JSStr
  preconditions : Option (List JSStr)
  postconditions : Option (List JSStr)
  deriving Repr, DecidableEq

/-- Raw provider-JSON element of the `recommendations` array. -/
structure RecommendationJson where
  category : Option JSStr
  priority : Option JSStr
  title : JSStr
  description : JSStr
  reasoning : Option JSStr
  deriving Repr, DecidableEq

/-- Raw provider-JSON scenario element returned by the test-generation
call (`parseTestResponse` returns the parsed JSON verbatim). -/
structure ScenarioJson where
  title : JSStr
  description : JSStr
  expected : Option JSStr
  deriving Repr, DecidableEq

/-- The parsed test-generation payload: `scenarios` may be absent. -/
structure TestGenData where
  scenarios : Option (List ScenarioJson)
  deriving Repr, DecidableEq

/-- The object produced by `JSON.parse` on the AI-review response body:
each of the five arrays may be absent. -/
structure ParsedAIJson where
  suggestions : Option (List SuggestionJson)
  security : Option (List SecurityJson)
  performance : Option (List PerformanceJson)
  recommendations : Option (List RecommendationJson)
  tests : Option (List TestJson)
  deriving Repr, DecidableEq

/-- Model of `AIAnalysisResponse`: the total shape the orchestrator consumes. -/
structure AIAnalysisResponse where
  suggestions : List SuggestionJson
  security : List SecurityJson
  performance : List PerformanceJson
  recommendations : List RecommendationJson
  tests : List TestJson
  deriving Repr, DecidableEq

/-- Success path of `AzureOpenAIService.parseAnalysisResponse`: default
each of the five arrays to `[]` when absent (`parsed.suggestions || []`
etc.).  The surrounding content-extraction and `JSON.parse` failures are
hard failures of the AI-review call and are folded into the AI oracle. -/
def parseAnalysisResponse (parsed : ParsedAIJson) : AIAnalysisResponse :=
  { suggestions := jsOrList parsed.suggestions
    security := jsOrList parsed.security
    performance := jsOrList parsed.performance
    recommendations := jsOrList parsed.recommendations
    tests := jsOrList parsed.tests }

/-- Model of `CodeSuggestion` from `analysis.model.ts` (string-typed enums kept
as run-time strings). -/
structure CodeSuggestion where
  id : JSStr
  file : JSStr
  line : Option Nat
  column : Option Nat
  message : JSStr
  severity : JSStr
  category : JSStr
  suggestedCode : Option JSStr
  reasoning : Option JSStr
  deriving Repr, DecidableEq

/-- Model of `SecurityIssue` from `analysis.model.ts`. -/
structure SecurityIssue where
  id : JSStr
  file : JSStr
  line : Option Nat
  issue : JSStr
  severity : JSStr
  recommendation : JSStr
  cwe : Option JSStr
  owasp : Option JSStr
  deriving Repr, DecidableEq

/-- Model of `PerformanceIssue` from `analysis.model.ts`. -/
structure PerformanceIssue where
  id : JSStr
  file : JSStr
  line : Option Nat
  issue : JSStr
  impact : JSStr
  recommendation : JSStr
  estimatedImprovement : Option JSStr
  deriving Repr, DecidableEq

/-- Model of `TestScenario` from `analysis.model.ts`. -/
structure TestScenario where
  id : JSStr
  title : JSStr
  description : JSStr
  priority : JSStr
  category : JSStr
  steps : List JSStr
  expectedResult : JSStr
  testData : Option JSStr
  preconditions : Option (List JSStr)
  postconditions : Option (List JSStr)
  deriving Repr, DecidableEq

/-- Model of `TestCase` from `analysis.model.ts` (`assertions` holds the raw
`scenario.expected`, possibly `undefined` at run time). -/
structure TestCase where
  id : JSStr
  scenario : JSStr
  title : JSStr
  description : JSStr
  type : JSStr
  file : JSStr
  assertions : List (Option JSStr)
  deriving Repr, DecidableEq

/-- Model of `Recommendation` from `analysis.model.ts`. -/
structure Recommendation where
  id : JSStr
  category : JSStr
  priority : JSStr
  title : JSStr
  description : JSStr
  reasoning : JSStr
  effort : JSStr
  impact : JSStr
  deriving Repr, DecidableEq

/-- Model of `CodeChange` from `analysis.model.ts`. -/
structure CodeChange where
  file : JSStr
  type : ChangeType
  description : JSStr
  impact : ImpactLevel
  linesChanged : Nat
  deriving Repr, DecidableEq

/-- Sequential id `<kind>-<index>` generated by the mappers. -/
def seqId (kind : JSStr) (index : Nat) : JSStr :=
  kind ++ [Char.ofNat 45] ++ (Nat.repr index).toList

/-- Model of `AnalysisService.mapSuggestions`. -/
def mapSuggestions (suggestions : List SuggestionJson) : List CodeSuggestion :=
  jsMapIdx (fun index s =>
    { id := seqId "suggestion".toList index
      file := s.file
      line := s.line
      column := s.column
      message := s.message
      severity := jsOrStr s.severity "info".toList
      category := jsOrStr s.category "best-practice".toList
      suggestedCode := s.suggestedCode
      reasoning := s.reasoning }) suggestions

/-- Model of `AnalysisService.mapSecurityIssues`. -/
def mapSecurityIssues (issues : List SecurityJson) : List SecurityIssue :=
  jsMapIdx (fun index issue =>
    { id := seqId "security".toList index
      file := issue.file
      line := issue.line
      issue := issue.issue
      severity := jsOrStr issue.severity "medium".toList
      recommendation := issue.recommendation
      cwe := issue.cwe
      owasp := issue.owasp }) issues

/-- Model of `AnalysisService.mapPerformanceIssues`. -/
def mapPerformanceIssues (issues : List PerformanceJson) : List PerformanceIssue :=
  jsMapIdx (fun index issue =>
    { id := seqId "performance".toList index
      file := issue.file
      line := issue.line
      issue := issue.issue
      impact := jsOrStr issue.impact "medium".toList
      recommendation := issue.recommendation
      estimatedImprovement := issue.estimatedImprovement }) issues

/-- Model of `AnalysisService.mapTestScenarios`. -/
def mapTestScenarios (tests : List TestJson) : List TestScenario :=
  jsMapIdx (fun index test =>
    { id := seqId "scenario".toList index
      title := test.title
      description := test.description
      priority := jsOrStr test.priority "medium".toList
      category := jsOrStr test.category "functional".toList
      steps := jsOrList test.steps
      expectedResult := jsOrStr test.expected []
      testData := test.testData
      preconditions := test.preconditions
      postconditions := test.postconditions }) tests

/-- Model of `AnalysisService.mapTestCases`. -/
def mapTestCases (scenarios : List ScenarioJson) : List TestCase :=
  jsMapIdx (fun index scenario =>
    { id := seqId "test".toList index
      scenario := scenario.title
      title := scenario.title
      description := scenario.description
      type := "integration".toList
      file := "test/integration/".toList
      assertions := [scenario.expected] }) scenarios

/-- Model of `AnalysisService.mapRecommendations`. -/
def mapRecommendations (recommendations : List RecommendationJson) : List Recommendation :=
  jsMapIdx (fun index rec =>
    { id := seqId "rec".toList index
      category := jsOrStr rec.category "maintainability".toList
      priority := jsOrStr rec.priority "medium".toList
      title := rec.title
      description := rec.description
      reasoning := jsOrStr rec.reasoning []
      effort := "medium".toList
      impact := "medium".toList }) recommendations

/-- Run-time string value of a `GitHubFile.status` member (template
interpolation in `mapCodeChanges`). -/
def fileStatusStr : FileStatus → JSStr
  | FileStatus.added => "added".toList
  | FileStatus.modified => "modified".toList
  | FileStatus.removed => "removed".toList
  | FileStatus.renamed => "renamed".toList

/-- Model of `AnalysisService.mapCodeChanges`. -/
def mapCodeChanges (files : List GitHubFile) : List CodeChange :=
  files.map (fun file =>
    { file := file.filename
      type := detectChangeType file.filename
      description := fileStatusStr file.status ++ [Char.ofNat 32] ++ file.filename
      impact := calculateImpact file
      linesChanged := file.changes })


/-- Model of `ModelRepositoryContext` from `github.model.ts`. -/
structure RepoContext where
  codingStandards : JSStr
  architecturePatterns : JSStr
  testingGuidelines : JSStr
  deriving Repr, DecidableEq

/-- Parsed PR locator `{owner, repo, prNumber}`. -/
structure ParsedPR where
  owner : JSStr
  repo : JSStr
  prNumber : Nat
  deriving Repr, DecidableEq

/-- Model of `AnalysisError` from `analysis.model.ts` (the nondeterministic
`timestamp` taken from `new Date()` is not modelled). -/
structure AnalysisError where
  code : JSStr
  message : JSStr
  deriving Repr, DecidableEq

/-- Model of `AnalysisStatus.status` union from `analysis.model.ts`. -/
inductive StatusKind
  | pending
  | analyzing
  | completed
  | failed
  deriving Repr, DecidableEq

/-- Model of `AnalysisStatus` from `analysis.model.ts`. -/
structure AnalysisStatus where
  status : StatusKind
  progress : Nat
  currentStep : Option JSStr
  error : Option AnalysisError
  deriving Repr, DecidableEq

/-- Initial value of the `status` signal in `AnalysisService`. -/
def pendingStatus : AnalysisStatus :=
  { status := StatusKind.pending, progress := 0, currentStep := none, error := none }

/-- Model of `updateStatus('analyzing', p, step)`. -/
def analyzingStatus (p : Nat) (step : JSStr) : AnalysisStatus :=
  { status := StatusKind.analyzing, progress := p, currentStep := some step, error := none }

/-- The `failed` status written by the pipeline-wide `catchError`:
progress 0, no step label, error code/message defaulted with `||`. -/
def failedStatusFor (e : ThrownError) : AnalysisStatus :=
  { status := StatusKind.failed
    progress := 0
    currentStep := none
    error := some
      { code := jsOrStr e.code "ANALYSIS_ERROR".toList
        message := jsOrStr e.message "Analysis failed".toList } }

/-- Model of `AnalysisResult` from `analysis.model.ts` (the nondeterministic
`id` — `Date.now()` plus `Math.random()` — and `timestamp` are not
modelled; every other field is). -/
structure AnalysisResult where
  prUrl : JSStr
  summary : JSStr
  suggestions : List CodeSuggestion
  security : List SecurityIssue
  performance : List PerformanceIssue
  codeChanges : List CodeChange
  schemaChanges : List SchemaChange
  testScenarios : List TestScenario
  testCases : List TestCase
  recommendations : List Recommendation
  deriving Repr, DecidableEq

/-- Model of `AnalysisService.generateSummary`. -/
def generateSummary (prData : GitHubPullRequest) (aiResult : AIAnalysisResponse) : JSStr :=
  let criticalIssues :=
    (aiResult.security.filter (fun s => s.severity == some "critical".toList)).length
  let suggestions := aiResult.suggestions.length
  "PR #".toList ++ (Nat.repr prData.number).toList ++ ": ".toList ++ prData.title ++
    ". Found ".toList ++ (Nat.repr suggestions).toList ++ " suggestions".toList ++
    (if criticalIssues > 0 then
      " and ".toList ++ (Nat.repr criticalIssues).toList ++ " critical security issues".toList
     else []) ++
    ".".toList

/-- Model of `AnalysisService.formatAnalysisResult`.  Field initialisers of the
object literal run in order; `detectSchemaChanges` is the only one that
can throw, so the whole step is `Except` over it.  (The `completed`
status is published by the caller before this object is built.) -/
def formatAnalysisResult (prData : GitHubPullRequest) (aiResult : AIAnalysisResponse)
    (testData : TestGenData) : Except ThrownError AnalysisResult :=
  match detectSchemaChanges prData.files with
  | Except.error e => Except.error e
  | Except.ok schemaChanges =>
    Except.ok
      { prUrl := "https://github.com/".toList ++ prData.repository.fullName ++
          "/pull/".toList ++ (Nat.repr prData.number).toList
        summary := generateSummary prData aiResult
        suggestions := mapSuggestions aiResult.suggestions
        security := mapSecurityIssues aiResult.security
        performance := mapPerformanceIssues aiResult.performance
        codeChanges := mapCodeChanges prData.files
        schemaChanges := schemaChanges
        testScenarios := mapTestScenarios aiResult.tests
        testCases := mapTestCases (jsOrList testData.scenarios)
        recommendations := mapRecommendations aiResult.recommendations }

/-- The GitHub collaborator as the orchestrator consumes it: the URL
validator/parser (pure) and the outcomes of the two network steps. -/
structure GitHubOracles where
  isValidPRUrl : JSStr → Bool
  parsePRUrl : JSStr → Option ParsedPR
  fetchJoin : Except ThrownError GitHubPullRequest
  loadModelRepoContext : Except ThrownError RepoContext

/-- The Azure OpenAI collaborator as the orchestrator consumes it:
outcomes of the review call and of the test-generation call. -/
structure AIOracles where
  analyzePR : Except ThrownError AIAnalysisResponse
  generateTests : Except ThrownError TestGenData

/-- Configuration and collaborators of one `analyzePullRequest` run. -/
structure AnalysisEnv where
  gh : GitHubOracles
  ai : AIOracles
  githubToken : JSStr
  modelRepoUrl : JSStr

/-- Step labels passed to `updateStatus`. -/
def stepFetching : JSStr := "Fetching PR data...".toList

/-- Step label of the context-loading checkpoint. -/
def stepLoading : JSStr := "Loading coding standards...".toList

/-- Step label of the AI-review checkpoint. -/
def stepAI : JSStr := "Analyzing code with AI...".toList

/-- Step label of the test-generation checkpoint. -/
def stepTests : JSStr := "Generating test cases...".toList

/-- Step label published together with `completed`. -/
def stepComplete : JSStr := "Analysis complete".toList

/-- Outcome of step 4 (`generateTestCases`): the provider call with its
inner `catchError` substituting `{ scenarios: [] }` on any failure. -/
def testGenOutcome (env : AnalysisEnv) : TestGenData :=
  match env.ai.generateTests with
  | Except.error _ => { scenarios := some [] }
  | Except.ok t => t

/-- Model of `updateStatus('completed', 100, 'Analysis complete')`, published at
the top of `formatAnalysisResult`. -/
def completedStatus : AnalysisStatus :=
  { status := StatusKind.completed, progress := 100
    currentStep := some stepComplete, error := none }

/-- Model of `AnalysisService.analyzePullRequest`: returns the list of statuses
written to the `status` signal during the run (in order, the initial
`pending` value not included) together with the observable outcome
delivered to the subscriber.  Control flow follows the source: token
check, URL check (both return `throwError` *before* the pipeline and its
`catchError` are built), then the five sequenced steps, with
test-generation failure absorbed (`of({scenarios: []})`) and every other
error routed through the `catchError` that writes the `failed` status
and rethrows. -/
def analyzePullRequest (env : AnalysisEnv) (prUrl : JSStr) :
    List AnalysisStatus × Except ThrownError AnalysisResult :=
  if env.githubToken = [] then
    ([], Except.error
      { code := some "MISSING_TOKEN".toList, message := some "GitHub token is required".toList })
  else if env.gh.isValidPRUrl prUrl = false then
    ([], Except.error
      { code := some "INVALID_URL".toList, message := some "Invalid GitHub PR URL".toList })
  else
    let s0 := analyzingStatus 0 stepFetching
    let s1 := analyzingStatus 10 stepFetching
    match env.gh.parsePRUrl prUrl with
    | none =>
      let e : ThrownError := { code := none, message := some "Invalid PR URL".toList }
      ([s0, s1, failedStatusFor e], Except.error e)
    | some _ =>
      match env.gh.fetchJoin with
      | Except.error e => ([s0, s1, failedStatusFor e], Except.error e)
      | Except.ok prData =>
        let s2 := analyzingStatus 30 stepLoading
        let ctxRes : Except ThrownError RepoContext :=
          if env.modelRepoUrl = [] then Except.ok { codingStandards := [], architecturePatterns := [], testingGuidelines := [] }
          else env.gh.loadModelRepoContext
        match ctxRes with
        | Except.error e => ([s0, s1, s2, failedStatusFor e], Except.error e)
        | Except.ok _ctx =>
          let s3 := analyzingStatus 50 stepAI
          match env.ai.analyzePR with
          | Except.error e => ([s0, s1, s2, s3, failedStatusFor e], Except.error e)
          | Except.ok aiResult =>
            let s4 := analyzingStatus 75 stepTests
            let testData := testGenOutcome env
            let s5 := completedStatus
            match formatAnalysisResult prData aiResult testData with
            | Except.error e => ([s0, s1, s2, s3, s4, s5, failedStatusFor e], Except.error e)
            | Except.ok result => ([s0, s1, s2, s3, s4, s5], Except.ok result)

/-- A minimal PR with no files, for concrete runs. -/
def trivialPR : GitHubPullRequest :=
  { number := 1
    title := "t".toList
    description := []
    filesChanged := 0
    additions := 0
    deletions := 0
    repository := { owner := "o".toList, name := "r".toList, fullName := "o/r".toList }
    files := []
    commits := [] }

/-- An empty AI review payload. -/
def emptyAIResponse : AIAnalysisResponse :=
  { suggestions := [], security := [], performance := [], recommendations := [], tests := [] }

/-- An environment in which every collaborator call succeeds. -/
def okEnv : AnalysisEnv :=
  { gh :=
      { isValidPRUrl := fun _ => true
        parsePRUrl := fun _ => some { owner := "o".toList, repo := "r".toList, prNumber := 1 }
        fetchJoin := Except.ok trivialPR
        loadModelRepoContext :=
          Except.ok { codingStandards := [], architecturePatterns := [], testingGuidelines := [] } }
    ai :=
      { analyzePR := Except.ok emptyAIResponse
        generateTests := Except.ok { scenarios := some [] } }
    githubToken := "t".toList
    modelRepoUrl := [] }

/-- A PR URL used for the concrete runs. -/
def prUrlEx : JSStr := "https://github.com/o/r/pull/1".toList

/-- Variant of `okEnv` with a failing PR-data fetch (simulated 404 from the
gateway's error mapping). -/
def fetchFailEnv : AnalysisEnv :=
  { okEnv with gh :=
      { okEnv.gh with fetchJoin :=
          Except.error { code := some "NOT_FOUND".toList, message := some "PR not found".toList } } }

/-- Variant of `okEnv` with a failing test-generation call. -/
def genFailEnv : AnalysisEnv :=
  { okEnv with ai :=
      { okEnv.ai with generateTests :=
          Except.error { code := some "AI_ERROR".toList, message := some "boom".toList } } }

/-- Variant of `okEnv` with no GitHub token configured. -/
def noTokenEnv : AnalysisEnv := { okEnv with githubToken := [] }

/-- The example schema file from the spec: `002_add_index.migration.ts`
with a patch containing `DROP TABLE`, status `modified`. -/
def migrationExampleFile : GitHubFile :=
  { filename := "002_add_index.migration.ts".toList
    status := FileStatus.modified
    additions := 1
    deletions := 1
    changes := 2
    patch := some "@@ -1 +1 @@\nDROP TABLE users;".toList
    previousFilename := none }

/-! ## Helper lemmas -/

/-- The boolean `schemaNameMatch` decides the disjunction of the three filename
tests of the spec's schema-change heuristic. -/
theorem schemaNameMatch_iff (name : JSStr) :
    schemaNameMatch name = true ↔
      ("migration".toList <:+: name ∨ "schema".toList <:+: name ∨ ".sql".toList <:+ name) := by
  simp [schemaNameMatch, jsIncludes, jsEndsWith, or_assoc]

/-- Length is preserved by the indexed map. -/
theorem jsMapIdxFrom_length {α β : Type} (f : Nat → α → β) (n : Nat) (l : List α) :
    (jsMapIdxFrom f n l).length = l.length := by
  induction l generalizing n with
  | nil => rfl
  | cons a rest ih => simp [jsMapIdxFrom, ih]

/-- Pointwise description of the indexed map. -/
theorem jsMapIdxFrom_getElem {α β : Type} (f : Nat → α → β) (n : Nat) (l : List α) (i : Nat) :
    (jsMapIdxFrom f n l)[i]? = (l[i]?).map (f (n + i)) := by
  induction l generalizing n i with
  | nil => simp [jsMapIdxFrom]
  | cons a rest ih =>
    cases i with
    | zero => simp [jsMapIdxFrom]
    | succ j =>
      have harith : n + (j + 1) = (n + 1) + j := by omega
      simp [jsMapIdxFrom, ih (n + 1) j, harith]

/-- The within-budget case of `ensureWithinLimit`. -/
theorem ensureWithinLimit_of_le (text : JSStr) (B : Nat) (h : estimateTokens text ≤ B) :
    ensureWithinLimit text B = text := by
  unfold ensureWithinLimit
  rw [if_pos h]

/-- The over-budget case of `ensureWithinLimit`. -/
theorem ensureWithinLimit_of_gt (text : JSStr) (B : Nat) (h : ¬ estimateTokens text ≤ B) :
    ensureWithinLimit text B = text.take (B * 4) ++ truncationMarker := by
  unfold ensureWithinLimit
  rw [if_neg h]

/-! ## Claims -/

/-- C6: `calculateImpact` returns `major` for strictly more than 500
changed lines, `minor` for strictly more than 100 (and at most 500),
`patch` otherwise; at the boundaries 100 ↦ patch, 101 ↦ minor,
500 ↦ minor, 501 ↦ major. -/
theorem calculateImpact_thresholds (f : GitHubFile) :
    (500 < f.changes → calculateImpact f = ImpactLevel.major) ∧
    (100 < f.changes → f.changes ≤ 500 → calculateImpact f = ImpactLevel.minor) ∧
    (f.changes ≤ 100 → calculateImpact f = ImpactLevel.patch) ∧
    (f.changes = 100 → calculateImpact f = ImpactLevel.patch) ∧
    (f.changes = 101 → calculateImpact f = ImpactLevel.minor) ∧
    (f.changes = 500 → calculateImpact f = ImpactLevel.minor) ∧
    (f.changes = 501 → calculateImpact f = ImpactLevel.major) := by
  unfold calculateImpact
  refine ⟨fun ha => ?_, fun ha hb => ?_, fun ha => ?_, fun ha => ?_, fun ha => ?_,
    fun ha => ?_, fun ha => ?_⟩ <;>
    split_ifs <;> first | rfl | (exfalso; omega)

/-- Witness for C6 at concrete boundary inputs. -/
theorem calculateImpact_thresholds_witness :
    calculateImpact ⟨[], FileStatus.modified, 0, 0, 501, none, none⟩ = ImpactLevel.major ∧
    calculateImpact ⟨[], FileStatus.modified, 0, 0, 100, none, none⟩ = ImpactLevel.patch :=
  ⟨(calculateImpact_thresholds _).2.2.2.2.2.2 rfl,
   (calculateImpact_thresholds _).2.2.2.1 rfl⟩

/-- C5: `estimateTokens` is the ceiling of length over 4; a diff within
the token budget is returned unchanged; an over-budget diff is cut to
the first `B * 4` characters plus the fixed marker; and truncation is
idempotent. -/
theorem ensureWithinLimit_spec (text : JSStr) (B : Nat) :
    (text.length ≤ 4 * estimateTokens text ∧ 4 * estimateTokens text < text.length + 4) ∧
    (estimateTokens text ≤ B → ensureWithinLimit text B = text) ∧
    (B < estimateTokens text →
      ensureWithinLimit text B = text.take (B * 4) ++ truncationMarker ∧
      (ensureWithinLimit text B).length = B * 4 + truncationMarker.length) ∧
    ensureWithinLimit (ensureWithinLimit text B) B = ensureWithinLimit text B := by
  have hm : truncationMarker.length = 30 := by decide
  refine ⟨?_, ensureWithinLimit_of_le text B, ?_, ?_⟩
  · unfold estimateTokens
    omega
  · intro h
    have hh : ¬ estimateTokens text ≤ B := by omega
    have hL : B * 4 + 1 ≤ text.length := by
      unfold estimateTokens at h
      omega
    refine ⟨ensureWithinLimit_of_gt text B hh, ?_⟩
    rw [ensureWithinLimit_of_gt text B hh, List.length_append, List.length_take]
    omega
  · by_cases h : estimateTokens text ≤ B
    · rw [ensureWithinLimit_of_le text B h, ensureWithinLimit_of_le text B h]
    · have hL : B * 4 + 1 ≤ text.length := by
        unfold estimateTokens at h
        omega
      have htake : (text.take (B * 4)).length = B * 4 := by
        rw [List.length_take]
        omega
      have hlen2 : (ensureWithinLimit text B).length = B * 4 + 30 := by
        rw [ensureWithinLimit_of_gt text B h, List.length_append, htake, hm]
      have h2 : ¬ estimateTokens (ensureWithinLimit text B) ≤ B := by
        unfold estimateTokens
        rw [hlen2]
        omega
      rw [ensureWithinLimit_of_gt _ B h2, ensureWithinLimit_of_gt text B h,
        List.take_append_eq_append_take, htake, Nat.sub_self]
      simp [List.take_take]

/-- Witness for C5: a 9-character text with budget 1 is truncated to 4
characters plus the marker; a 4-character text with budget 1 is kept. -/
theorem ensureWithinLimit_spec_witness :
    ensureWithinLimit (List.replicate 9 (Char.ofNat 97)) 1 =
      (List.replicate 9 (Char.ofNat 97)).take 4 ++ truncationMarker ∧
    ensureWithinLimit (List.replicate 4 (Char.ofNat 97)) 1 =
      List.replicate 4 (Char.ofNat 97) :=
  ⟨by
    have h := (ensureWithinLimit_spec (List.replicate 9 (Char.ofNat 97)) 1).2.2.1 (by decide)
    simpa using h.1,
   (ensureWithinLimit_spec (List.replicate 4 (Char.ofNat 97)) 1).2.1 (by decide)⟩

/-- C4: a file is flagged by `detectSchemaChanges` iff its filename
contains the case-sensitive substring "migration" or "schema" or ends
with ".sql"; a flagged entry's action is `add` exactly when the file
status is `added` (else `modify`) and `breakingChange` holds exactly
when the patch contains the case-insensitive substring "drop"; the
spec's `002_add_index.migration.ts` example is flagged
`modify`/`breakingChange: true`, and `README.md` is never flagged. -/
theorem detectSchemaChanges_flagging (f : GitHubFile) (p : JSStr) (hp : f.patch = some p) :
    (("migration".toList <:+: f.filename ∨ "schema".toList <:+: f.filename ∨
        ".sql".toList <:+ f.filename) →
      detectSchemaChanges [f] = Except.ok [mkSchemaChange f p]) ∧
    (¬ ("migration".toList <:+: f.filename ∨ "schema".toList <:+: f.filename ∨
        ".sql".toList <:+ f.filename) →
      detectSchemaChanges [f] = Except.ok []) ∧
    ((mkSchemaChange f p).action = SchemaAction.add ↔ f.status = FileStatus.added) ∧
    ((mkSchemaChange f p).breakingChange = true ↔ "drop".toList <:+: p.map Char.toLower) ∧
    detectSchemaChanges [migrationExampleFile] =
      Except.ok [mkSchemaChange migrationExampleFile "@@ -1 +1 @@\nDROP TABLE users;".toList] ∧
    (mkSchemaChange migrationExampleFile "@@ -1 +1 @@\nDROP TABLE users;".toList).action =
      SchemaAction.modify ∧
    (mkSchemaChange migrationExampleFile "@@ -1 +1 @@\nDROP TABLE users;".toList).breakingChange =
      true ∧
    (∀ file : GitHubFile, file.filename = "README.md".toList →
      detectSchemaChanges [file] = Except.ok []) := by
  refine ⟨?_, ?_, ?_, ?_, ?_, ?_, ?_, ?_⟩
  · intro h
    have hname : schemaNameMatch f.filename = true := (schemaNameMatch_iff f.filename).mpr h
    simp [detectSchemaChanges, hname, hp]
  · intro h
    have hname : schemaNameMatch f.filename = false := by
      cases hb : schemaNameMatch f.filename with
      | true => exact absurd ((schemaNameMatch_iff f.filename).mp hb) h
      | false => rfl
    simp [detectSchemaChanges, hname]
  · simp only [mkSchemaChange]
    split_ifs with hs
    · simp [hs]
    · simp [hs]
  · simp [mkSchemaChange, jsIncludes, jsToLower]
  · rfl
  · rfl
  · decide
  · intro file hfile
    have hname : schemaNameMatch file.filename = false := by
      rw [hfile]
      decide
    simp [detectSchemaChanges, hname]

/-- Witness for C4 at the spec's example file. -/
theorem detectSchemaChanges_flagging_witness :
    detectSchemaChanges [migrationExampleFile] =
      Except.ok [mkSchemaChange migrationExampleFile "@@ -1 +1 @@\nDROP TABLE users;".toList] :=
  (detectSchemaChanges_flagging migrationExampleFile _ rfl).1 (Or.inl (by decide))

/-- C9: `detectSchemaChanges` throws (rather than returning a result)
exactly when the file list contains a heuristic-matching file carrying
no patch text; when every matching file has a patch it returns a
result. -/
theorem detectSchemaChanges_patch_precondition (files : List GitHubFile) :
    ((∃ f ∈ files, ("migration".toList <:+: f.filename ∨ "schema".toList <:+: f.filename ∨
        ".sql".toList <:+ f.filename) ∧ f.patch = none) →
      detectSchemaChanges files = Except.error patchTypeError) ∧
    ((∀ f ∈ files, ("migration".toList <:+: f.filename ∨ "schema".toList <:+: f.filename ∨
        ".sql".toList <:+ f.filename) → f.patch ≠ none) →
      ∃ l, detectSchemaChanges files = Except.ok l) := by
  induction files with
  | nil =>
    constructor
    · rintro ⟨f, hf, -⟩
      simp at hf
    · intro _
      exact ⟨[], rfl⟩
  | cons g rest ih =>
    constructor
    · rintro ⟨f, hf, hmatch, hnone⟩
      rcases List.mem_cons.mp hf with rfl | hmem
      · have hname : schemaNameMatch f.filename = true := (schemaNameMatch_iff _).mpr hmatch
        simp [detectSchemaChanges, hname, hnone]
      · by_cases hg : schemaNameMatch g.filename = true
        · cases hq : g.patch with
          | none => simp [detectSchemaChanges, hg, hq]
          | some p =>
            have herr := ih.1 ⟨f, hmem, hmatch, hnone⟩
            simp [detectSchemaChanges, hg, hq, herr]
        · have hg2 : schemaNameMatch g.filename = false := by simpa using hg
          have herr := ih.1 ⟨f, hmem, hmatch, hnone⟩
          simp [detectSchemaChanges, hg2, herr]
    · intro hall
      by_cases hg : schemaNameMatch g.filename = true
      · have hmatch := (schemaNameMatch_iff g.filename).mp hg
        have hne := hall g (List.mem_cons_self g rest) hmatch
        cases hq : g.patch with
        | none => exact absurd hq hne
        | some p =>
          obtain ⟨l, hl⟩ := ih.2 (fun f hf hm => hall f (List.mem_cons_of_mem g hf) hm)
          exact ⟨mkSchemaChange g p :: l, by simp [detectSchemaChanges, hg, hq, hl]⟩
      · have hg2 : schemaNameMatch g.filename = false := by simpa using hg
        obtain ⟨l, hl⟩ := ih.2 (fun f hf hm => hall f (List.mem_cons_of_mem g hf) hm)
        exact ⟨l, by simp [detectSchemaChanges, hg2, hl]⟩

/-- Witness for C9: a matching patchless file makes detection throw,
while the spec's example file (with a patch) is processed. -/
theorem detectSchemaChanges_patch_precondition_witness :
    detectSchemaChanges [⟨"db/schema.rb".toList, FileStatus.modified, 0, 0, 1, none, none⟩] =
      Except.error patchTypeError ∧
    (∃ l, detectSchemaChanges [migrationExampleFile] = Except.ok l) :=
  ⟨(detectSchemaChanges_patch_precondition _).1
      ⟨_, List.mem_singleton_self _, Or.inr (Or.inl (by decide)), rfl⟩,
   (detectSchemaChanges_patch_precondition _).2
      (fun f hf _ => by
        rw [List.mem_singleton] at hf
        subst hf
        decide)⟩

/-- C10: every schema change the heuristic produces has type
`migration`; the other `SchemaChange.type` members (table, column,
index, constraint) are never produced. -/
theorem detectSchemaChanges_type_always_migration (files : List GitHubFile)
    (l : List SchemaChange) (h : detectSchemaChanges files = Except.ok l) :
    ∀ c ∈ l, c.type = SchemaType.migration := by
  induction files generalizing l with
  | nil =>
    simp [detectSchemaChanges] at h
    subst h
    simp
  | cons g rest ih =>
    by_cases hg : schemaNameMatch g.filename = true
    · cases hq : g.patch with
      | none => simp [detectSchemaChanges, hg, hq] at h
      | some p =>
        cases hr : detectSchemaChanges rest with
        | error e => simp [detectSchemaChanges, hg, hq, hr] at h
        | ok l2 =>
          simp [detectSchemaChanges, hg, hq, hr] at h
          subst h
          intro c hc
          rcases List.mem_cons.mp hc with rfl | hc2
          · rfl
          · exact ih l2 hr c hc2
    · have hg2 : schemaNameMatch g.filename = false := by simpa using hg
      have hstep : detectSchemaChanges (g :: rest) = detectSchemaChanges rest := by
        simp [detectSchemaChanges, hg2]
      rw [hstep] at h
      exact ih l h

/-- Witness for C10 at the spec's example file. -/
theorem detectSchemaChanges_type_always_migration_witness :
    (mkSchemaChange migrationExampleFile "@@ -1 +1 @@\nDROP TABLE users;".toList).type =
      SchemaType.migration :=
  detectSchemaChanges_type_always_migration [migrationExampleFile]
    [mkSchemaChange migrationExampleFile "@@ -1 +1 @@\nDROP TABLE users;".toList] rfl
    (mkSchemaChange migrationExampleFile "@@ -1 +1 @@\nDROP TABLE users;".toList)
    (List.mem_singleton_self _)

/-- C7: each of the five provider arrays, when absent, is replaced by
`[]` by `parseAnalysisResponse`; every element mapped by any of the six
mappers receives the sequential id `<kind>-<index>` of its kind
(suggestion, security, performance, scenario, test, rec) with missing
fields defaulted — in particular a suggestion with no severity gets
"info" and with no category gets "best-practice". -/
theorem parseAnalysisResponse_defaults (parsed : ParsedAIJson)
    (ls : List SuggestionJson) (lsec : List SecurityJson) (lperf : List PerformanceJson)
    (lt : List TestJson) (lscen : List ScenarioJson) (lrec : List RecommendationJson)
    (i : Nat) (s : SuggestionJson) :
    (parsed.suggestions = none → (parseAnalysisResponse parsed).suggestions = []) ∧
    (parsed.security = none → (parseAnalysisResponse parsed).security = []) ∧
    (parsed.performance = none → (parseAnalysisResponse parsed).performance = []) ∧
    (parsed.recommendations = none → (parseAnalysisResponse parsed).recommendations = []) ∧
    (parsed.tests = none → (parseAnalysisResponse parsed).tests = []) ∧
    ((mapSuggestions ls).length = ls.length ∧
      (mapSuggestions ls)[i]? = (ls[i]?).map (fun t =>
        { id := seqId "suggestion".toList i
          file := t.file
          line := t.line
          column := t.column
          message := t.message
          severity := jsOrStr t.severity "info".toList
          category := jsOrStr t.category "best-practice".toList
          suggestedCode := t.suggestedCode
          reasoning := t.reasoning })) ∧
    ((mapSecurityIssues lsec).length = lsec.length ∧
      (mapSecurityIssues lsec)[i]? = (lsec[i]?).map (fun t =>
        { id := seqId "security".toList i
          file := t.file
          line := t.line
          issue := t.issue
          severity := jsOrStr t.severity "medium".toList
          recommendation := t.recommendation
          cwe := t.cwe
          owasp := t.owasp })) ∧
    ((mapPerformanceIssues lperf).length = lperf.length ∧
      (mapPerformanceIssues lperf)[i]? = (lperf[i]?).map (fun t =>
        { id := seqId "performance".toList i
          file := t.file
          line := t.line
          issue := t.issue
          impact := jsOrStr t.impact "medium".toList
          recommendation := t.recommendation
          estimatedImprovement := t.estimatedImprovement })) ∧
    ((mapTestScenarios lt).length = lt.length ∧
      (mapTestScenarios lt)[i]? = (lt[i]?).map (fun t =>
        { id := seqId "scenario".toList i
          title := t.title
          description := t.description
          priority := jsOrStr t.priority "medium".toList
          category := jsOrStr t.category "functional".toList
          steps := jsOrList t.steps
          expectedResult := jsOrStr t.expected []
          testData := t.testData
          preconditions := t.preconditions
          postconditions := t.postconditions })) ∧
    ((mapTestCases lscen).length = lscen.length ∧
      (mapTestCases lscen)[i]? = (lscen[i]?).map (fun t =>
        { id := seqId "test".toList i
          scenario := t.title
          title := t.title
          description := t.description
          type := "integration".toList
          file := "test/integration/".toList
          assertions := [t.expected] })) ∧
    ((mapRecommendations lrec).length = lrec.length ∧
      (mapRecommendations lrec)[i]? = (lrec[i]?).map (fun t =>
        { id := seqId "rec".toList i
          category := jsOrStr t.category "maintainability".toList
          priority := jsOrStr t.priority "medium".toList
          title := t.title
          description := t.description
          reasoning := jsOrStr t.reasoning []
          effort := "medium".toList
          impact := "medium".toList })) ∧
    (s.severity = none → s.category = none →
      mapSuggestions [s] =
        [{ id := "suggestion-0".toList
           file := s.file
           line := s.line
           column := s.column
           message := s.message
           severity := "info".toList
           category := "best-practice".toList
           suggestedCode := s.suggestedCode
           reasoning := s.reasoning }]) := by
  refine ⟨?_, ?_, ?_, ?_, ?_, ⟨?_, ?_⟩, ⟨?_, ?_⟩, ⟨?_, ?_⟩, ⟨?_, ?_⟩, ⟨?_, ?_⟩, ⟨?_, ?_⟩, ?_⟩
  · intro h
    simp [parseAnalysisResponse, h, jsOrList]
  · intro h
    simp [parseAnalysisResponse, h, jsOrList]
  · intro h
    simp [parseAnalysisResponse, h, jsOrList]
  · intro h
    simp [parseAnalysisResponse, h, jsOrList]
  · intro h
    simp [parseAnalysisResponse, h, jsOrList]
  · simp [mapSuggestions, jsMapIdx, jsMapIdxFrom_length]
  · rw [mapSuggestions, jsMapIdx, jsMapIdxFrom_getElem]
    simp
  · simp [mapSecurityIssues, jsMapIdx, jsMapIdxFrom_length]
  · rw [mapSecurityIssues, jsMapIdx, jsMapIdxFrom_getElem]
    simp
  · simp [mapPerformanceIssues, jsMapIdx, jsMapIdxFrom_length]
  · rw [mapPerformanceIssues, jsMapIdx, jsMapIdxFrom_getElem]
    simp
  · simp [mapTestScenarios, jsMapIdx, jsMapIdxFrom_length]
  · rw [mapTestScenarios, jsMapIdx, jsMapIdxFrom_getElem]
    simp
  · simp [mapTestCases, jsMapIdx, jsMapIdxFrom_length]
  · rw [mapTestCases, jsMapIdx, jsMapIdxFrom_getElem]
    simp
  · simp [mapRecommendations, jsMapIdx, jsMapIdxFrom_length]
  · rw [mapRecommendations, jsMapIdx, jsMapIdxFrom_getElem]
    simp
  · intro hsev hcat
    simp [mapSuggestions, jsMapIdx, jsMapIdxFrom, hsev, hcat, jsOrStr, seqId]
    decide

/-- Witness for C7: a suggestion with no severity/category mapped with
defaults, and an all-absent parsed payload yielding empty arrays. -/
theorem parseAnalysisResponse_defaults_witness :
    (parseAnalysisResponse
        { suggestions := none, security := none, performance := none,
          recommendations := none, tests := none }).suggestions = [] ∧
    mapSuggestions [⟨"a.ts".toList, some 1, none, "x".toList, none, none, none, none⟩] =
      [{ id := "suggestion-0".toList
         file := "a.ts".toList
         line := some 1
         column := none
         message := "x".toList
         severity := "info".toList
         category := "best-practice".toList
         suggestedCode := none
         reasoning := none }] :=
  ⟨(parseAnalysisResponse_defaults
      { suggestions := none, security := none, performance := none,
        recommendations := none, tests := none } [] [] [] [] [] [] 0
      ⟨"a.ts".toList, some 1, none, "x".toList, none, none, none, none⟩).1 rfl,
   (parseAnalysisResponse_defaults
      { suggestions := none, security := none, performance := none,
        recommendations := none, tests := none } [] [] [] [] [] [] 0
      ⟨"a.ts".toList, some 1, none, "x".toList, none, none, none, none⟩).2.2.2.2.2.2.2.2.2.2.2
      rfl rfl⟩

/-- Characterization of a fully successful `analyzePullRequest` run:
with a token present, a valid and parseable URL, successful fetch,
context and AI review, and throw-free schema detection, the run
publishes exactly the six checkpoint statuses and resolves with the
formatted result. -/
theorem analyzePullRequest_run_eq (env : AnalysisEnv) (prUrl : JSStr)
    (htok : ¬ env.githubToken = [])
    (hurl : env.gh.isValidPRUrl prUrl = true)
    (pp : ParsedPR) (hparse : env.gh.parsePRUrl prUrl = some pp)
    (prData : GitHubPullRequest) (hfetch : env.gh.fetchJoin = Except.ok prData)
    (hctx : env.modelRepoUrl = [] ∨ ∃ ctx, env.gh.loadModelRepoContext = Except.ok ctx)
    (aiResult : AIAnalysisResponse) (hai : env.ai.analyzePR = Except.ok aiResult)
    (sc : List SchemaChange) (hdet : detectSchemaChanges prData.files = Except.ok sc) :
    analyzePullRequest env prUrl =
      ([analyzingStatus 0 stepFetching, analyzingStatus 10 stepFetching,
        analyzingStatus 30 stepLoading, analyzingStatus 50 stepAI,
        analyzingStatus 75 stepTests, completedStatus],
       Except.ok
         { prUrl := "https://github.com/".toList ++ prData.repository.fullName ++
             "/pull/".toList ++ (Nat.repr prData.number).toList
           summary := generateSummary prData aiResult
           suggestions := mapSuggestions aiResult.suggestions
           security := mapSecurityIssues aiResult.security
           performance := mapPerformanceIssues aiResult.performance
           codeChanges := mapCodeChanges prData.files
           schemaChanges := sc
           testScenarios := mapTestScenarios aiResult.tests
           testCases := mapTestCases (jsOrList (testGenOutcome env).scenarios)
           recommendations := mapRecommendations aiResult.recommendations }) := by
  have hvalid : ¬ (env.gh.isValidPRUrl prUrl = false) := by simp [hurl]
  unfold analyzePullRequest
  rw [if_neg htok, if_neg hvalid, hparse, hfetch, hai]
  rcases hctx with hm | ⟨ctx, hc⟩
  · rw [if_pos hm]
    simp [formatAnalysisResult, hdet]
  · by_cases hm : env.modelRepoUrl = []
    · rw [if_pos hm]
      simp [formatAnalysisResult, hdet]
    · rw [if_neg hm, hc]
      simp [formatAnalysisResult, hdet]

/-- C1 (counterexample): a fully successful concrete run publishes an
extra `analyzing(0)` status (the "Reset status" write) between the
initial `pending` value and `analyzing(10)`, so the published sequence
is not the claimed
`pending, analyzing(10), analyzing(30), analyzing(50), analyzing(75),
completed(100)`. -/
theorem analyzePullRequest_extra_initial_status :
    (analyzePullRequest okEnv prUrlEx).2.isOk = true ∧
    (pendingStatus :: (analyzePullRequest okEnv prUrlEx).1).map
        (fun st => (st.status, st.progress)) =
      [(StatusKind.pending, 0), (StatusKind.analyzing, 0), (StatusKind.analyzing, 10),
       (StatusKind.analyzing, 30), (StatusKind.analyzing, 50), (StatusKind.analyzing, 75),
       (StatusKind.completed, 100)] ∧
    [(StatusKind.pending, 0), (StatusKind.analyzing, 0), (StatusKind.analyzing, 10),
       (StatusKind.analyzing, 30), (StatusKind.analyzing, 50), (StatusKind.analyzing, 75),
       (StatusKind.completed, 100)] ≠
      [(StatusKind.pending, 0), (StatusKind.analyzing, 10), (StatusKind.analyzing, 30),
       (StatusKind.analyzing, 50), (StatusKind.analyzing, 75), (StatusKind.completed, 100)] := by
  refine ⟨?_, ?_, ?_⟩ <;> decide

/-- C1 (amended): for every successful run the status sequence,
including the signal's initial `pending` value, is exactly `pending(0)`,
`analyzing(0)`, `analyzing(10)`, `analyzing(30)`, `analyzing(50)`,
`analyzing(75)`, `completed(100)`, with the documented step labels. -/
theorem analyzePullRequest_status_sequence (env : AnalysisEnv) (prUrl : JSStr)
    (htok : ¬ env.githubToken = [])
    (hurl : env.gh.isValidPRUrl prUrl = true)
    (pp : ParsedPR) (hparse : env.gh.parsePRUrl prUrl = some pp)
    (prData : GitHubPullRequest) (hfetch : env.gh.fetchJoin = Except.ok prData)
    (hctx : env.modelRepoUrl = [] ∨ ∃ ctx, env.gh.loadModelRepoContext = Except.ok ctx)
    (aiResult : AIAnalysisResponse) (hai : env.ai.analyzePR = Except.ok aiResult)
    (sc : List SchemaChange) (hdet : detectSchemaChanges prData.files = Except.ok sc) :
    pendingStatus :: (analyzePullRequest env prUrl).1 =
      [pendingStatus, analyzingStatus 0 stepFetching, analyzingStatus 10 stepFetching,
       analyzingStatus 30 stepLoading, analyzingStatus 50 stepAI,
       analyzingStatus 75 stepTests, completedStatus] ∧
    (analyzePullRequest env prUrl).2.isOk = true := by
  have h := analyzePullRequest_run_eq env prUrl htok hurl pp hparse prData hfetch hctx
    aiResult hai sc hdet
  rw [h]
  exact ⟨rfl, rfl⟩

/-- Witness for the amended C1 at a concrete all-success environment. -/
theorem analyzePullRequest_status_sequence_witness :
    pendingStatus :: (analyzePullRequest okEnv prUrlEx).1 =
      [pendingStatus, analyzingStatus 0 stepFetching, analyzingStatus 10 stepFetching,
       analyzingStatus 30 stepLoading, analyzingStatus 50 stepAI,
       analyzingStatus 75 stepTests, completedStatus] ∧
    (analyzePullRequest okEnv prUrlEx).2.isOk = true :=
  analyzePullRequest_status_sequence okEnv prUrlEx (by decide) rfl
    ⟨"o".toList, "r".toList, 1⟩ rfl trivialPR rfl (Or.inl rfl) emptyAIResponse rfl [] rfl

/-- C2: when the test-generation call errors, the run still resolves
with `testCases = []` and the last published status is
`completed(100)`; the error never propagates to the caller. -/
theorem analyzePullRequest_testgen_failure_absorbed (env : AnalysisEnv) (prUrl : JSStr)
    (htok : ¬ env.githubToken = [])
    (hurl : env.gh.isValidPRUrl prUrl = true)
    (pp : ParsedPR) (hparse : env.gh.parsePRUrl prUrl = some pp)
    (prData : GitHubPullRequest) (hfetch : env.gh.fetchJoin = Except.ok prData)
    (hctx : env.modelRepoUrl = [] ∨ ∃ ctx, env.gh.loadModelRepoContext = Except.ok ctx)
    (aiResult : AIAnalysisResponse) (hai : env.ai.analyzePR = Except.ok aiResult)
    (sc : List SchemaChange) (hdet : detectSchemaChanges prData.files = Except.ok sc)
    (e : ThrownError) (hgen : env.ai.generateTests = Except.error e) :
    (analyzePullRequest env prUrl).2.map (fun r => r.testCases) = Except.ok [] ∧
    (analyzePullRequest env prUrl).1.getLast? = some completedStatus := by
  have h := analyzePullRequest_run_eq env prUrl htok hurl pp hparse prData hfetch hctx
    aiResult hai sc hdet
  rw [h]
  constructor
  · simp [Except.map, testGenOutcome, hgen, jsOrList, mapTestCases, jsMapIdx, jsMapIdxFrom]
  · rfl

/-- Witness for C2 at a concrete environment with a failing
test-generation call. -/
theorem analyzePullRequest_testgen_failure_absorbed_witness :
    (analyzePullRequest genFailEnv prUrlEx).2.map (fun r => r.testCases) = Except.ok [] ∧
    (analyzePullRequest genFailEnv prUrlEx).1.getLast? = some completedStatus :=
  analyzePullRequest_testgen_failure_absorbed genFailEnv prUrlEx (by decide) rfl
    ⟨"o".toList, "r".toList, 1⟩ rfl trivialPR rfl (Or.inl rfl) emptyAIResponse rfl [] rfl
    { code := some "AI_ERROR".toList, message := some "boom".toList } rfl

/-- C3 (counterexample): with no token configured the call errors with
`MISSING_TOKEN` but publishes no status at all — in particular the
status never transitions to `failed`, contradicting the claim's
"surfaced via the failed state". -/
theorem analyzePullRequest_validation_no_failed_status :
    (analyzePullRequest noTokenEnv prUrlEx).2 =
      Except.error { code := some "MISSING_TOKEN".toList
                     message := some "GitHub token is required".toList } ∧
    (analyzePullRequest noTokenEnv prUrlEx).1 = [] ∧
    (analyzePullRequest noTokenEnv prUrlEx).1.all
      (fun st => st.status != StatusKind.failed) = true :=
  ⟨rfl, rfl, rfl⟩

/-- C3 (amended): a missing token or an invalid PR URL makes the call
fail immediately — independently of every collaborator, hence before
any network request — with code `MISSING_TOKEN` resp. `INVALID_URL`
delivered on the caller's error channel, and with no status published
(no `failed` state transition). -/
theorem analyzePullRequest_validation_short_circuit (env : AnalysisEnv) (prUrl : JSStr) :
    (env.githubToken = [] →
      analyzePullRequest env prUrl =
        ([], Except.error { code := some "MISSING_TOKEN".toList
                            message := some "GitHub token is required".toList })) ∧
    (¬ env.githubToken = [] → env.gh.isValidPRUrl prUrl = false →
      analyzePullRequest env prUrl =
        ([], Except.error { code := some "INVALID_URL".toList
                            message := some "Invalid GitHub PR URL".toList })) := by
  constructor
  · intro h
    unfold analyzePullRequest
    rw [if_pos h]
  · intro h hv
    unfold analyzePullRequest
    rw [if_neg h, if_pos hv]

/-- Witness for the amended C3: both validation failures at concrete
environments. -/
theorem analyzePullRequest_validation_short_circuit_witness :
    analyzePullRequest noTokenEnv prUrlEx =
      ([], Except.error { code := some "MISSING_TOKEN".toList
                          message := some "GitHub token is required".toList }) ∧
    analyzePullRequest { okEnv with gh := { okEnv.gh with isValidPRUrl := fun _ => false } }
        prUrlEx =
      ([], Except.error { code := some "INVALID_URL".toList
                          message := some "Invalid GitHub PR URL".toList }) :=
  ⟨(analyzePullRequest_validation_short_circuit noTokenEnv prUrlEx).1 rfl,
   (analyzePullRequest_validation_short_circuit
      { okEnv with gh := { okEnv.gh with isValidPRUrl := fun _ => false } } prUrlEx).2
      (by decide) rfl⟩

/-- C8 (counterexample): a run whose PR fetch fails publishes
progresses `0, 10, 0` — the final `failed` status resets progress to 0,
so progress is not monotonically non-decreasing in a failed run. -/
theorem analyzePullRequest_failed_progress_reset :
    (analyzePullRequest fetchFailEnv prUrlEx).1.map (fun st => st.progress) = [0, 10, 0] ∧
    ¬ List.Chain' (fun a b => a ≤ b)
        ((analyzePullRequest fetchFailEnv prUrlEx).1.map (fun st => st.progress)) ∧
    ((analyzePullRequest fetchFailEnv prUrlEx).1.getLast?).map (fun st => st.status) =
      some StatusKind.failed := by
  have hmap : (analyzePullRequest fetchFailEnv prUrlEx).1.map (fun st => st.progress) =
      [0, 10, 0] := by decide
  refine ⟨hmap, ?_, by decide⟩
  rw [hmap]
  intro hch
  rcases List.chain'_cons.mp hch with ⟨-, hch2⟩
  rcases List.chain'_cons.mp hch2 with ⟨hle, -⟩
  omega

/-- C8 (amended): in every run that completes successfully the
published progress values (from the initial `pending(0)` on) are
monotonically non-decreasing; a failed run instead ends with a `failed`
status carrying progress 0. -/
theorem analyzePullRequest_progress_monotone_on_success (env : AnalysisEnv) (prUrl : JSStr)
    (htok : ¬ env.githubToken = [])
    (hurl : env.gh.isValidPRUrl prUrl = true)
    (pp : ParsedPR) (hparse : env.gh.parsePRUrl prUrl = some pp)
    (prData : GitHubPullRequest) (hfetch : env.gh.fetchJoin = Except.ok prData)
    (hctx : env.modelRepoUrl = [] ∨ ∃ ctx, env.gh.loadModelRepoContext = Except.ok ctx)
    (aiResult : AIAnalysisResponse) (hai : env.ai.analyzePR = Except.ok aiResult)
    (sc : List SchemaChange) (hdet : detectSchemaChanges prData.files = Except.ok sc) :
    List.Chain' (fun a b => a.progress ≤ b.progress)
      (pendingStatus :: (analyzePullRequest env prUrl).1) := by
  have h := analyzePullRequest_run_eq env prUrl htok hurl pp hparse prData hfetch hctx
    aiResult hai sc hdet
  rw [h]
  simp [List.chain'_cons, pendingStatus, analyzingStatus, completedStatus]

/-- Witness for the amended C8 at a concrete all-success environment. -/
theorem analyzePullRequest_progress_monotone_on_success_witness :
    List.Chain' (fun a b => a.progress ≤ b.progress)
      (pendingStatus :: (analyzePullRequest okEnv prUrlEx).1) :=
  analyzePullRequest_progress_monotone_on_success okEnv prUrlEx (by decide) rfl
    ⟨"o".toList, "r".toList, 1⟩ rfl trivialPR rfl (Or.inl rfl) emptyAIResponse rfl [] rfl
